import Mathlib

/-!
Verification of the Allwinner sun50i PSCI platform power-management handlers
(`plat/sun50iw1p1/plat_pm.c`) against their natural-language specification.

Modelling conventions:
* Framework queries (`psci_get_max_phys_off_afflvl`, `psci_get_suspend_afflvl`)
  are fields of an explicit environment record `PsciEnv`, read-only during a
  single handler invocation.
* Hardware side effects (GIC calls, power actuators, console calls, barriers,
  MMIO writes, SCR_EL3 writes) are recorded as an explicit `Event` trace, in
  program order.
* C `assert` statements are modelled by returning `none` (assertion fired);
  a normal return is `some` of the C return value together with the trace.
* Machine integers: affinity levels, states and MPIDRs are `Nat` (the C code
  uses unsigned types for these); return codes are `Int` (the C code uses
  signed `int32_t`).
-/

namespace SunxiPM

/-- `MPIDR_MAX_AFFLVL` from the framework arch header: the hierarchy maximum
affinity level (0 = core, 1 = cluster, 2 = system). -/
def MPIDR_MAX_AFFLVL : Nat := 2

/-- `MPIDR_AFFLVL0`: the core affinity level. -/
def MPIDR_AFFLVL0 : Nat := 0

/-- `MPIDR_AFF0_SHIFT`: bit position of the core-index field of an MPIDR. -/
def MPIDR_AFF0_SHIFT : Nat := 0

/-- `MPIDR_AFF1_SHIFT`: bit position of the cluster-index field of an MPIDR. -/
def MPIDR_AFF1_SHIFT : Nat := 8

/-- `MPIDR_AFFLVL_MASK`: per-field width mask of an MPIDR affinity field. -/
def MPIDR_AFFLVL_MASK : Nat := 0xff

/-- `PSCI_STATE_OFF` from the framework psci header: the OFF-intent domain
state. Only its distinctness from the other state encodings matters here. -/
def PSCI_STATE_OFF : Nat := 2

/-- `PSCI_INVALID_DATA` (defined as `-1` in the framework psci header), as it
compares against the unsigned `uint32_t` level it is checked against. -/
def PSCI_INVALID_DATA : Nat := 0xffffffff

/-- `EAGAIN` from errno.h. The gate returns `-EAGAIN` to signal "defer". -/
def EAGAIN : Int := 11

/-- `PSCI_E_SUCCESS`. -/
def PSCI_E_SUCCESS : Int := 0

/-- `PSCI_E_INVALID_PARAMS`. -/
def PSCI_E_INVALID_PARAMS : Int := -2

/-- `SCR_IRQ_BIT` (bit 1 of SCR_EL3): physical-IRQ routing/wake bit. -/
def SCR_IRQ_BIT : Nat := 2

/-- Read-only view of the framework state consulted by the handlers during one
invocation: the reported maximum-physical-off affinity level and the overall
suspend affinity level of the in-flight transition. -/
structure PsciEnv where
  max_phys_off_afflvl : Nat
  suspend_afflvl : Nat
deriving DecidableEq, Repr

/-- `psci_get_max_phys_off_afflvl()`: framework query for the highest affinity
level physically powered off in the current transition. -/
def psci_get_max_phys_off_afflvl (env : PsciEnv) : Nat :=
  env.max_phys_off_afflvl

/-- `psci_get_suspend_afflvl()`: framework query for the overall suspend
affinity level of the current transition. -/
def psci_get_suspend_afflvl (env : PsciEnv) : Nat :=
  env.suspend_afflvl

/-- Hardware-visible actions a handler can perform, in program order. -/
inductive Event where
  | arm_gic_cpuif_deactivate
  | sun50i_cpu_power_down (cluster cpu : Nat)
  | sun50i_set_secondary_entry (entry cpu : Nat)
  | sun50i_cpu_power_up (cluster cpu : Nat)
  | console_exit
  | arm_gic_init
  | arm_gic_setup
  | console_init
  | platform_smp_init
  | arm_gic_cpuif_setup
  | arm_gic_pcpu_distif_setup
  | read_scr_el3
  | write_scr_el3 (v : Nat)
  | isb
  | dsb
  | wfi
  | mmio_write_32 (addr v : Nat)
  | error_msg
  | panic
deriving DecidableEq, Repr

/-- `sunxi_do_plat_actions(afflvl, state)` — the Action Gate. Returns `none`
when one of its three `assert`s fires, `some 0` for "act now", and
`some (-EAGAIN)` for "defer". -/
def sunxi_do_plat_actions (env : PsciEnv) (afflvl state : Nat) : Option Int :=
  if afflvl ≤ MPIDR_MAX_AFFLVL then
    if state ≠ PSCI_STATE_OFF then
      some (-EAGAIN)
    else
      let max_phys_off_afflvl := psci_get_max_phys_off_afflvl env
      if max_phys_off_afflvl ≠ PSCI_INVALID_DATA then
        if psci_get_suspend_afflvl env ≥ max_phys_off_afflvl then
          if afflvl ≠ max_phys_off_afflvl then
            some (-EAGAIN)
          else
            some 0
        else none
      else none
  else none

/-- Core index decoded from an MPIDR: `(mpidr >> MPIDR_AFF0_SHIFT) & MPIDR_AFFLVL_MASK`. -/
def mpidr_cpu_nr (mpidr : Nat) : Nat :=
  (mpidr >>> MPIDR_AFF0_SHIFT) &&& MPIDR_AFFLVL_MASK

/-- Cluster index decoded from an MPIDR: `(mpidr >> MPIDR_AFF1_SHIFT) & MPIDR_AFFLVL_MASK`. -/
def mpidr_cluster_nr (mpidr : Nat) : Nat :=
  (mpidr >>> MPIDR_AFF1_SHIFT) &&& MPIDR_AFFLVL_MASK

/-- `sunxi_power_down_common(afflvl, mpidr, sec_entrypoint)`: deactivate this
core's GIC CPU interface, then power down the decoded (cluster, core) pair. -/
def sunxi_power_down_common (afflvl mpidr sec_entrypoint : Nat) :
    Int × List Event :=
  let cpu_nr := mpidr_cpu_nr mpidr
  let cluster_nr := mpidr_cluster_nr mpidr
  (PSCI_E_SUCCESS,
    [Event.arm_gic_cpuif_deactivate,
     Event.sun50i_cpu_power_down cluster_nr cpu_nr])

/-- `sunxi_affinst_off(mpidr, afflvl, state)`: the Off handler. -/
def sunxi_affinst_off (env : PsciEnv) (mpidr afflvl state : Nat) :
    Option (Int × List Event) :=
  match sunxi_do_plat_actions env afflvl state with
  | none => none
  | some r =>
    if r = -EAGAIN then
      some (PSCI_E_SUCCESS, [])
    else
      some (sunxi_power_down_common afflvl mpidr 0)

/-- `sunxi_affinst_suspend(mpidr, sec_entrypoint, ns_entrypoint, afflvl, state)`:
the Suspend handler. -/
def sunxi_affinst_suspend (env : PsciEnv)
    (mpidr sec_entrypoint ns_entrypoint afflvl state : Nat) :
    Option (Int × List Event) :=
  match sunxi_do_plat_actions env afflvl state with
  | none => none
  | some r =>
    if r = -EAGAIN then
      some (PSCI_E_SUCCESS, [])
    else
      let pre :=
        if afflvl = psci_get_suspend_afflvl env then [Event.console_exit]
        else []
      let pd := sunxi_power_down_common afflvl mpidr sec_entrypoint
      some (pd.1, pre ++ pd.2)

/-- `sunxi_affinst_on(mpidr, sec_entrypoint, ns_entrypoint, afflvl, state)`:
the On handler. Only acts at the core level. -/
def sunxi_affinst_on (mpidr sec_entrypoint ns_entrypoint afflvl state : Nat) :
    Int × List Event :=
  let cpu_nr := mpidr_cpu_nr mpidr
  let cluster_nr := mpidr_cluster_nr mpidr
  if afflvl ≠ MPIDR_AFFLVL0 then
    (PSCI_E_SUCCESS, [])
  else
    (PSCI_E_SUCCESS,
      [Event.sun50i_set_secondary_entry sec_entrypoint cpu_nr,
       Event.sun50i_cpu_power_up cluster_nr cpu_nr])

/-- `sunxi_affinst_on_finish(mpidr, afflvl, state)`: the Resume Finisher.
Gated: when the Action Gate defers, a no-op success; otherwise SMP init and
per-core GIC CPU-interface / per-cpu distributor setup. -/
def sunxi_affinst_on_finish (env : PsciEnv) (mpidr afflvl state : Nat) :
    Option (Int × List Event) :=
  match sunxi_do_plat_actions env afflvl state with
  | none => none
  | some r =>
    if r = -EAGAIN then
      some (PSCI_E_SUCCESS, [])
    else
      some (PSCI_E_SUCCESS,
        [Event.platform_smp_init,
         Event.arm_gic_cpuif_setup,
         Event.arm_gic_pcpu_distif_setup])

/-- `sunxi_affinst_suspend_finish(mpidr, afflvl, state)`: the Suspend
Finisher. System-wide GIC and console reinitialization when this level is the
overall suspend level and the MPIDR's low byte (core index field) is 0, then
unconditional delegation to the Resume Finisher. -/
def sunxi_affinst_suspend_finish (env : PsciEnv) (mpidr afflvl state : Nat) :
    Option (Int × List Event) :=
  let pre :=
    if afflvl = psci_get_suspend_afflvl env ∧ mpidr &&& 0xff = 0 then
      [Event.arm_gic_init, Event.arm_gic_setup, Event.console_init]
    else []
  match sunxi_affinst_on_finish env mpidr afflvl state with
  | none => none
  | some fin => some (fin.1, pre ++ fin.2)

/-- Modelled from the spec: `psci_get_pstate_afflvl(power_state)` is a
framework helper (psci header, not under `src/`) that extracts the target
affinity level field from the requested power-state encoding; modelled as the
fixed bit-field extraction the framework documents (level field at bit 25,
2 bits wide). -/
def psci_get_pstate_afflvl (power_state : Nat) : Nat :=
  (power_state >>> 25) &&& 0x3

/-- `sunxi_affinst_standby(power_state)`: the Standby handler. `scr0` is the
value of SCR_EL3 at entry (the value `read_scr_el3()` returns). Rejects any
target level other than the core level without touching hardware; otherwise
sets the physical-IRQ wake bit, waits for an interrupt, and restores the
saved SCR_EL3 value. -/
def sunxi_affinst_standby (power_state scr0 : Nat) : Int × List Event :=
  let target_afflvl := psci_get_pstate_afflvl power_state
  if target_afflvl ≠ MPIDR_AFFLVL0 then
    (PSCI_E_INVALID_PARAMS, [])
  else
    let scr := scr0
    (PSCI_E_SUCCESS,
      [Event.read_scr_el3,
       Event.write_scr_el3 (scr ||| SCR_IRQ_BIT),
       Event.isb,
       Event.dsb,
       Event.wfi,
       Event.write_scr_el3 scr])

/-- The value of SCR_EL3 after a trace of events runs, starting from `scr0`:
only `write_scr_el3` events change the register (an interrupt delivered at
the `wfi` cannot, since IRQs are not taken to EL3 here). -/
def scrAfter (scr0 : Nat) : List Event → Nat
  | [] => scr0
  | Event.write_scr_el3 v :: rest => scrAfter v rest
  | _ :: rest => scrAfter scr0 rest

/-- `sunxi_system_reset()`: programs the watchdog reset registers with fixed
literal values, then halts. Declared `__dead2` in the source: it yields no
return value, only the action trace, whose final `panic` is a permanent
halt. -/
def sunxi_system_reset : List Event :=
  [Event.mmio_write_32 0x01c20cb4 1,
   Event.mmio_write_32 0x01c20cb8 1,
   Event.mmio_write_32 0x01c20cb0 ((0xa57 <<< 1) ||| 0x01),
   Event.wfi,
   Event.error_msg,
   Event.panic]

/-! ## Helper lemmas -/

/-- Under valid framework reports, the gate reduces to an equality test
against the maximum-physical-off level. -/
theorem gate_eq_of_valid (env : PsciEnv) (afflvl : Nat)
    (hLvl : afflvl ≤ MPIDR_MAX_AFFLVL)
    (hValid : env.max_phys_off_afflvl ≠ PSCI_INVALID_DATA)
    (hSusp : env.suspend_afflvl ≥ env.max_phys_off_afflvl) :
    sunxi_do_plat_actions env afflvl PSCI_STATE_OFF =
      if afflvl = env.max_phys_off_afflvl then some 0 else some (-EAGAIN) := by
  unfold sunxi_do_plat_actions psci_get_max_phys_off_afflvl
    psci_get_suspend_afflvl
  rw [if_pos hLvl, if_neg (by simp), if_pos hValid, if_pos hSusp]
  by_cases h : afflvl = env.max_phys_off_afflvl
  · rw [if_neg (by simpa using h), if_pos h]
  · rw [if_pos h, if_neg h]

/-- The Resume Finisher's trace is either empty (gate deferred) or exactly
the three per-core setup actions. -/
theorem on_finish_trace_cases (env : PsciEnv) (mpidr afflvl state : Nat)
    (r : Int) (evs : List Event)
    (h : sunxi_affinst_on_finish env mpidr afflvl state = some (r, evs)) :
    evs = [] ∨
      evs = [Event.platform_smp_init, Event.arm_gic_cpuif_setup,
             Event.arm_gic_pcpu_distif_setup] := by
  unfold sunxi_affinst_on_finish at h
  rcases hg : sunxi_do_plat_actions env afflvl state with _ | r2
  · rw [hg] at h
    cases h
  · rw [hg] at h
    dsimp only at h
    by_cases he : r2 = -EAGAIN
    · rw [if_pos he] at h
      left
      cases h
      rfl
    · rw [if_neg he] at h
      right
      cases h
      rfl

/-! ## Claim theorems -/

/-- Claim C1: with domain state OFF-intent and the gate's preconditions
satisfied (level within the hierarchy bound, valid maximum-physical-off
report, suspend level at least that report), the Action Gate returns 0
("act now") exactly when the requested level equals the reported
maximum-physical-off level, and `-EAGAIN` ("defer") otherwise. -/
theorem actionGate_off_intent_act_iff (env : PsciEnv) (afflvl : Nat)
    (hLvl : afflvl ≤ MPIDR_MAX_AFFLVL)
    (hValid : env.max_phys_off_afflvl ≠ PSCI_INVALID_DATA)
    (hSusp : env.suspend_afflvl ≥ env.max_phys_off_afflvl) :
    (sunxi_do_plat_actions env afflvl PSCI_STATE_OFF = some 0 ↔
      afflvl = env.max_phys_off_afflvl) ∧
    (afflvl ≠ env.max_phys_off_afflvl →
      sunxi_do_plat_actions env afflvl PSCI_STATE_OFF = some (-EAGAIN)) := by
  rw [gate_eq_of_valid env afflvl hLvl hValid hSusp]
  by_cases h : afflvl = env.max_phys_off_afflvl
  · rw [if_pos h]
    exact ⟨⟨fun _ => h, fun _ => rfl⟩, fun hne => absurd h hne⟩
  · rw [if_neg h]
    refine ⟨⟨fun he => ?_, fun he => absurd he h⟩, fun _ => rfl⟩
    simp [EAGAIN] at he

/-- Claim C1 witness at a concrete input. -/
theorem actionGate_off_intent_act_iff_witness :
    ((sunxi_do_plat_actions ⟨1, 2⟩ 1 PSCI_STATE_OFF = some 0 ↔
       1 = (⟨1, 2⟩ : PsciEnv).max_phys_off_afflvl) ∧
     (1 ≠ (⟨1, 2⟩ : PsciEnv).max_phys_off_afflvl →
       sunxi_do_plat_actions ⟨1, 2⟩ 1 PSCI_STATE_OFF = some (-EAGAIN))) :=
  actionGate_off_intent_act_iff ⟨1, 2⟩ 1 (by decide) (by decide) (by decide)

/-- Claim C2: whenever the requested domain state is not OFF-intent, the
Action Gate defers for every in-range affinity level, and its result is
independent of the framework's maximum-physical-off and suspend reports
(the gate returns before querying them). -/
theorem actionGate_defer_when_not_off (env : PsciEnv) (afflvl state : Nat)
    (hLvl : afflvl ≤ MPIDR_MAX_AFFLVL) (hS : state ≠ PSCI_STATE_OFF) :
    sunxi_do_plat_actions env afflvl state = some (-EAGAIN) ∧
    ∀ env2 : PsciEnv,
      sunxi_do_plat_actions env2 afflvl state =
        sunxi_do_plat_actions env afflvl state := by
  have key : ∀ e : PsciEnv,
      sunxi_do_plat_actions e afflvl state = some (-EAGAIN) := by
    intro e
    unfold sunxi_do_plat_actions
    rw [if_pos hLvl, if_pos hS]
  exact ⟨key env, fun env2 => (key env2).trans (key env).symm⟩

/-- Claim C2 witness at a concrete input. -/
theorem actionGate_defer_when_not_off_witness :
    sunxi_do_plat_actions ⟨5, 0⟩ 0 0 = some (-EAGAIN) ∧
    ∀ env2 : PsciEnv,
      sunxi_do_plat_actions env2 0 0 = sunxi_do_plat_actions ⟨5, 0⟩ 0 0 :=
  actionGate_defer_when_not_off ⟨5, 0⟩ 0 0 (by decide) (by decide)

/-- Claim C8: for an in-range affinity level, an assertion in the Action Gate
fires exactly when the domain state is OFF-intent and the framework reports
are invalid (maximum-physical-off level is the invalid sentinel, or the
suspend level is strictly below it); under valid reports no assertion
fires. -/
theorem actionGate_asserts_iff (env : PsciEnv) (afflvl state : Nat)
    (hLvl : afflvl ≤ MPIDR_MAX_AFFLVL) :
    sunxi_do_plat_actions env afflvl state = none ↔
      (state = PSCI_STATE_OFF ∧
        (env.max_phys_off_afflvl = PSCI_INVALID_DATA ∨
         env.suspend_afflvl < env.max_phys_off_afflvl)) := by
  unfold sunxi_do_plat_actions psci_get_max_phys_off_afflvl
    psci_get_suspend_afflvl
  rw [if_pos hLvl]
  by_cases hS : state = PSCI_STATE_OFF
  · rw [if_neg (by simpa using hS)]
    by_cases hV : env.max_phys_off_afflvl = PSCI_INVALID_DATA
    · rw [if_neg (by simpa using hV)]
      simp [hS, hV]
    · rw [if_pos hV]
      by_cases hG : env.suspend_afflvl ≥ env.max_phys_off_afflvl
      · rw [if_pos hG]
        constructor
        · intro h
          by_cases hEq : afflvl = env.max_phys_off_afflvl
          · rw [if_neg (by simpa using hEq)] at h
            cases h
          · rw [if_pos hEq] at h
            cases h
        · rintro ⟨-, hBad⟩
          rcases hBad with hBad | hBad
          · exact absurd hBad hV
          · omega
      · rw [if_neg hG]
        simp only [true_iff, hS, true_and]
        right
        omega
  · rw [if_pos hS]
    simp [hS]

/-- Claim C8 witness at a concrete input: invalid sentinel report makes the
gate assert. -/
theorem actionGate_asserts_iff_witness :
    sunxi_do_plat_actions ⟨PSCI_INVALID_DATA, 0⟩ 0 PSCI_STATE_OFF = none ↔
      (PSCI_STATE_OFF = PSCI_STATE_OFF ∧
        ((⟨PSCI_INVALID_DATA, 0⟩ : PsciEnv).max_phys_off_afflvl =
            PSCI_INVALID_DATA ∨
         (⟨PSCI_INVALID_DATA, 0⟩ : PsciEnv).suspend_afflvl <
            (⟨PSCI_INVALID_DATA, 0⟩ : PsciEnv).max_phys_off_afflvl)) :=
  actionGate_asserts_iff ⟨PSCI_INVALID_DATA, 0⟩ 0 PSCI_STATE_OFF (by decide)

/-- Claim C3: when the Action Gate defers, both the Off handler and the
Suspend handler return success with an empty action trace — in particular
no power-down actuator call, no GIC CPU-interface deactivation, and no
console shutdown. -/
theorem off_suspend_noop_on_defer (env : PsciEnv)
    (mpidr sec_entrypoint ns_entrypoint afflvl state : Nat)
    (hDefer : sunxi_do_plat_actions env afflvl state = some (-EAGAIN)) :
    sunxi_affinst_off env mpidr afflvl state =
      some (PSCI_E_SUCCESS, ([] : List Event)) ∧
    sunxi_affinst_suspend env mpidr sec_entrypoint ns_entrypoint afflvl
        state = some (PSCI_E_SUCCESS, ([] : List Event)) := by
  constructor
  · unfold sunxi_affinst_off
    rw [hDefer]
    dsimp only
    rw [if_pos rfl]
  · unfold sunxi_affinst_suspend
    rw [hDefer]
    dsimp only
    rw [if_pos rfl]

/-- Claim C3 witness at a concrete input (gate defers because the level is
below the maximum-physical-off level). -/
theorem off_suspend_noop_on_defer_witness :
    sunxi_affinst_off ⟨1, 1⟩ 0 0 PSCI_STATE_OFF =
      some (PSCI_E_SUCCESS, ([] : List Event)) ∧
    sunxi_affinst_suspend ⟨1, 1⟩ 0 7 9 0 PSCI_STATE_OFF =
      some (PSCI_E_SUCCESS, ([] : List Event)) :=
  off_suspend_noop_on_defer ⟨1, 1⟩ 0 7 9 0 PSCI_STATE_OFF (by decide)

/-- Claim C5: when the Action Gate signals "act now", the Suspend handler's
trace is the console shutdown — present exactly when this call's level
equals the overall suspend level — followed by the Power-Down Common
Sequencer's two actions, in that order. -/
theorem suspend_console_exit_spec (env : PsciEnv)
    (mpidr sec_entrypoint ns_entrypoint afflvl state : Nat)
    (hAct : sunxi_do_plat_actions env afflvl state = some 0) :
    sunxi_affinst_suspend env mpidr sec_entrypoint ns_entrypoint afflvl
        state =
      some (PSCI_E_SUCCESS,
        (if afflvl = env.suspend_afflvl then [Event.console_exit] else []) ++
          [Event.arm_gic_cpuif_deactivate,
           Event.sun50i_cpu_power_down (mpidr_cluster_nr mpidr)
             (mpidr_cpu_nr mpidr)]) := by
  unfold sunxi_affinst_suspend
  rw [hAct]
  dsimp only
  rw [if_neg (by decide)]
  rfl

/-- Claim C5 witness at a concrete input: suspend of (cluster 1, core 2) at
the suspend level performs console shutdown before power-down. -/
theorem suspend_console_exit_spec_witness :
    sunxi_affinst_suspend ⟨0, 0⟩ 0x102 7 9 0 PSCI_STATE_OFF =
      some (PSCI_E_SUCCESS,
        (if 0 = (⟨0, 0⟩ : PsciEnv).suspend_afflvl then [Event.console_exit]
         else []) ++
          [Event.arm_gic_cpuif_deactivate,
           Event.sun50i_cpu_power_down (mpidr_cluster_nr 0x102)
             (mpidr_cpu_nr 0x102)]) :=
  suspend_console_exit_spec ⟨0, 0⟩ 0x102 7 9 0 PSCI_STATE_OFF (by decide)

/-- Claim C6: a power-state encoding whose target affinity level is not the
core level makes the Standby handler return `PSCI_E_INVALID_PARAMS` with an
empty action trace — no SCR_EL3 access, no barrier, no wait-for-interrupt. -/
theorem standby_rejects_noncore_level (power_state scr0 : Nat)
    (h : psci_get_pstate_afflvl power_state ≠ MPIDR_AFFLVL0) :
    sunxi_affinst_standby power_state scr0 =
      (PSCI_E_INVALID_PARAMS, ([] : List Event)) := by
  unfold sunxi_affinst_standby
  rw [if_pos h]

/-- Claim C6 witness at a concrete input: level field = 1 (bit 25 set). -/
theorem standby_rejects_noncore_level_witness :
    sunxi_affinst_standby 0x2000000 0 =
      (PSCI_E_INVALID_PARAMS, ([] : List Event)) :=
  standby_rejects_noncore_level 0x2000000 0 (by decide)

/-- Claim C7: at the core level, the Standby handler returns success and
SCR_EL3 after its trace runs equals the entry value: the trace first writes
the entry value with the physical-IRQ wake bit set, then (after the
wait-for-interrupt) writes back exactly the saved entry value. -/
theorem standby_restores_scr (power_state scr0 : Nat)
    (h : psci_get_pstate_afflvl power_state = MPIDR_AFFLVL0) :
    (sunxi_affinst_standby power_state scr0).1 = PSCI_E_SUCCESS ∧
    scrAfter scr0 (sunxi_affinst_standby power_state scr0).2 = scr0 ∧
    (sunxi_affinst_standby power_state scr0).2 =
      [Event.read_scr_el3,
       Event.write_scr_el3 (scr0 ||| SCR_IRQ_BIT),
       Event.isb, Event.dsb, Event.wfi,
       Event.write_scr_el3 scr0] := by
  unfold sunxi_affinst_standby
  rw [if_neg (by simpa using h)]
  exact ⟨rfl, rfl, rfl⟩

/-- Claim C7 witness at a concrete input. -/
theorem standby_restores_scr_witness :
    (sunxi_affinst_standby 0 5).1 = PSCI_E_SUCCESS ∧
    scrAfter 5 (sunxi_affinst_standby 0 5).2 = 5 ∧
    (sunxi_affinst_standby 0 5).2 =
      [Event.read_scr_el3,
       Event.write_scr_el3 (5 ||| SCR_IRQ_BIT),
       Event.isb, Event.dsb, Event.wfi,
       Event.write_scr_el3 5] :=
  standby_restores_scr 0 5 (by decide)

/-- Claim C9: the reset handler's action sequence is exactly the three fixed
MMIO writes with the documented literal values — 1 to 0x01c20cb4, then 1 to
0x01c20cb8, then `(0xa57 << 1) | 0x01 = 0x14af` to 0x01c20cb0 — followed by
the wait-for-interrupt; should the wait ever fall through, only the
diagnostic and the permanent `panic` halt follow, so control never returns
to the caller (the model accordingly yields no return value). -/
theorem system_reset_trace_spec :
    sunxi_system_reset =
      [Event.mmio_write_32 0x01c20cb4 1,
       Event.mmio_write_32 0x01c20cb8 1,
       Event.mmio_write_32 0x01c20cb0 0x14af,
       Event.wfi, Event.error_msg, Event.panic] ∧
    (0xa57 <<< 1) ||| 0x01 = 0x14af ∧
    sunxi_system_reset.getLast? = some Event.panic := by
  decide

/-- Claim C10: the Power-Down Common Sequencer ignores its affinity-level and
resume-entry-address arguments — any two invocations on the same MPIDR
produce the identical trace and result — and that common output is success
with exactly the GIC CPU-interface deactivation followed by the power-down
of the decoded (cluster, core) pair. In particular the resume entry address
the Suspend handler passes is never recorded on the power-down path. -/
theorem power_down_common_insensitive
    (afflvl1 afflvl2 mpidr sec1 sec2 : Nat) :
    sunxi_power_down_common afflvl1 mpidr sec1 =
      sunxi_power_down_common afflvl2 mpidr sec2 ∧
    sunxi_power_down_common afflvl1 mpidr sec1 =
      (PSCI_E_SUCCESS,
        [Event.arm_gic_cpuif_deactivate,
         Event.sun50i_cpu_power_down (mpidr_cluster_nr mpidr)
           (mpidr_cpu_nr mpidr)]) :=
  ⟨rfl, rfl⟩

/-- Claim C4: the Suspend Finisher asserts exactly when the Resume Finisher
does; on a normal return its result is the Resume Finisher's result and its
trace is the Resume Finisher's trace prefixed by the system-wide
reinitialization (GIC init, GIC setup, console init), the prefix present —
and its three events occurring in the trace — exactly when the affinity
level equals the overall suspend level and the MPIDR's core-index byte is
zero. -/
theorem suspend_finish_spec (env : PsciEnv) (mpidr afflvl state : Nat) :
    (sunxi_affinst_suspend_finish env mpidr afflvl state = none ↔
      sunxi_affinst_on_finish env mpidr afflvl state = none) ∧
    (∀ (r : Int) (evs : List Event),
      sunxi_affinst_suspend_finish env mpidr afflvl state = some (r, evs) →
      ∃ evs0,
        sunxi_affinst_on_finish env mpidr afflvl state = some (r, evs0) ∧
        evs =
          (if afflvl = env.suspend_afflvl ∧ mpidr &&& 0xff = 0 then
            [Event.arm_gic_init, Event.arm_gic_setup, Event.console_init]
          else []) ++ evs0 ∧
        ((Event.arm_gic_init ∈ evs ∧ Event.arm_gic_setup ∈ evs ∧
            Event.console_init ∈ evs) ↔
          (afflvl = env.suspend_afflvl ∧ mpidr &&& 0xff = 0))) := by
  unfold sunxi_affinst_suspend_finish psci_get_suspend_afflvl
  rcases hf : sunxi_affinst_on_finish env mpidr afflvl state with _ | fin
  · constructor
    · simp
    · intro r evs h
      dsimp only at h
      cases h
  · obtain ⟨rf, evs0⟩ := fin
    constructor
    · simp
    · intro r evs h
      dsimp only at h
      rw [Option.some_inj] at h
      injection h with hr hevs
      subst hr
      subst hevs
      refine ⟨evs0, rfl, rfl, ?_⟩
      have hcases := on_finish_trace_cases env mpidr afflvl state rf evs0 hf
      by_cases hc : afflvl = env.suspend_afflvl ∧ mpidr &&& 0xff = 0
      · rw [if_pos hc]
        simp [hc]
      · rw [if_neg hc]
        simp only [List.nil_append]
        constructor
        · intro hmem
          exfalso
          rcases hcases with h0 | h0 <;> rw [h0] at hmem <;>
            simp at hmem
        · intro hcc
          exact absurd hcc hc

/-- Claim C4 witness at a concrete input: primary core at the suspend level,
reinitialization prefix present. -/
theorem suspend_finish_spec_witness :
    ∃ evs0,
      sunxi_affinst_on_finish ⟨0, 0⟩ 0 0 PSCI_STATE_OFF =
        some (PSCI_E_SUCCESS, evs0) ∧
      [Event.arm_gic_init, Event.arm_gic_setup, Event.console_init,
       Event.platform_smp_init, Event.arm_gic_cpuif_setup,
       Event.arm_gic_pcpu_distif_setup] =
        (if (0 : Nat) = (⟨0, 0⟩ : PsciEnv).suspend_afflvl ∧
            (0 : Nat) &&& 0xff = 0 then
          [Event.arm_gic_init, Event.arm_gic_setup, Event.console_init]
        else []) ++ evs0 ∧
      ((Event.arm_gic_init ∈
          [Event.arm_gic_init, Event.arm_gic_setup, Event.console_init,
           Event.platform_smp_init, Event.arm_gic_cpuif_setup,
           Event.arm_gic_pcpu_distif_setup] ∧
        Event.arm_gic_setup ∈
          [Event.arm_gic_init, Event.arm_gic_setup, Event.console_init,
           Event.platform_smp_init, Event.arm_gic_cpuif_setup,
           Event.arm_gic_pcpu_distif_setup] ∧
        Event.console_init ∈
          [Event.arm_gic_init, Event.arm_gic_setup, Event.console_init,
           Event.platform_smp_init, Event.arm_gic_cpuif_setup,
           Event.arm_gic_pcpu_distif_setup]) ↔
        ((0 : Nat) = (⟨0, 0⟩ : PsciEnv).suspend_afflvl ∧
          (0 : Nat) &&& 0xff = 0)) :=
  (suspend_finish_spec ⟨0, 0⟩ 0 0 PSCI_STATE_OFF).2 PSCI_E_SUCCESS
    [Event.arm_gic_init, Event.arm_gic_setup, Event.console_init,
     Event.platform_smp_init, Event.arm_gic_cpuif_setup,
     Event.arm_gic_pcpu_distif_setup] (by decide)

end SunxiPM
